import Mathlib

/-!
Shallow embedding of the RamadanReady alarm engine (file `js/alarms.js` of the
repository): the alarm planner inside `scheduleAlarms`, the scheduler state
(armed timers and the persisted `nextAlarmData` record), missed-alarm recovery
(`checkMissedAlarms`) and the settings reader (`getAlarmSettings`).
Timestamps are modelled as integer milliseconds (JS `Date.getTime()`); a
calendar day is represented by the millisecond instant of its local midnight
(`dayStart`) together with an opaque date string (JS `toDateString()`).
-/

namespace RamadanReady

/-- Constant `MAX_MISSED_ALARM_AGE = 60 * 60 * 1000`: the missed-alarm
recovery window in milliseconds (1 hour). -/
def MAX_MISSED_ALARM_AGE : Int := 60 * 60 * 1000

/-- The alarm settings object: `{enabled, saharMinutes, iftarMinutes}`. -/
structure AlarmSettings where
  enabled : Bool
  saharMinutes : Int
  iftarMinutes : Int
deriving DecidableEq

/-- A pre-validated `HH:MM` clock time, as produced by
`todayData.saharTime.split(..).map(Number)`. -/
structure HHMM where
  hours : Nat
  minutes : Nat
deriving DecidableEq

/-- The calendar entry for today as read from the database: the two event
times. -/
structure DayData where
  saharTime : HHMM
  iftarTime : HHMM
deriving DecidableEq

/-- A planned alarm as built by `scheduleAlarms` (the `eventTime` field keeps
the raw `HH:MM`; `time` is the absolute instant in ms). -/
structure Alarm where
  type : String
  time : Int
  eventTime : HHMM
  message : String
  title : String
deriving DecidableEq

/-- Model of `new Date(now)` followed by `setHours(h, m, 0, 0)`: the instant
of clock time `t` on the day whose local midnight is `dayStart`. -/
def hhmmInstant (dayStart : Int) (t : HHMM) : Int :=
  dayStart + ((t.hours * 60 + t.minutes : Nat) : Int) * 60000

/-- The pure planning core of `scheduleAlarms`: from `now`, the midnight of
the day, the settings and the data for today, the list of alarms pushed onto
`alarms`, in source order (sahar-pre, sahar, iftar-pre, iftar), each guarded
by a strict `time > now` comparison. -/
def computeAlarms (now dayStart : Int) (settings : AlarmSettings)
    (todayData : DayData) : List Alarm :=
  let saharTime := hhmmInstant dayStart todayData.saharTime
  let saharAlarmTime := saharTime - settings.saharMinutes * 60000
  let iftarTime := hhmmInstant dayStart todayData.iftarTime
  let iftarAlarmTime := iftarTime - settings.iftarMinutes * 60000
  (if saharAlarmTime > now then
    [{ type := "sahar-pre", time := saharAlarmTime, eventTime := todayData.saharTime,
       message := "Sahar ends in " ++ toString settings.saharMinutes ++ " minutes",
       title := "Sahar Reminder" }]
   else [])
  ++ (if saharTime > now then
    [{ type := "sahar", time := saharTime, eventTime := todayData.saharTime,
       message := "Time for Sahar! End your meal now.",
       title := "Sahar Time" }]
   else [])
  ++ (if iftarAlarmTime > now then
    [{ type := "iftar-pre", time := iftarAlarmTime, eventTime := todayData.iftarTime,
       message := "Iftar begins in " ++ toString settings.iftarMinutes ++ " minutes",
       title := "Iftar Reminder" }]
   else [])
  ++ (if iftarTime > now then
    [{ type := "iftar", time := iftarTime, eventTime := todayData.iftarTime,
       message := "Time for Iftar! Break your fast.",
       title := "Iftar Time" }]
   else [])

/-- One entry of the persisted `nextAlarmData` record:
`{type, time, triggered}`. -/
structure StoredAlarm where
  type : String
  time : Int
  triggered : Bool
deriving DecidableEq

/-- The persisted `nextAlarmData` record: `{alarms, calendarId, date}`. -/
structure AlarmData where
  alarms : List StoredAlarm
  calendarId : Option Nat
  date : String
deriving DecidableEq

/-- The mutable state touched by the scheduler: the armed timer list
(`alarmTimers`, each timer identified by the alarm it will fire) and the
LocalStorage slot holding the persisted record. -/
structure SysState where
  alarmTimers : List Alarm
  storedAlarmData : Option AlarmData
deriving DecidableEq

/-- Result of running `scheduleAlarms`: the new state plus the trace of the
`storeAlarmData` calls it performed. -/
structure SchedResult where
  state : SysState
  writes : List AlarmData
deriving DecidableEq

/-- Model of `scheduleAlarms`: clears all armed timers, returns early
(deleting the record) when disabled, returns early when no day data exists,
otherwise arms one timer per computed alarm and — only when at least one
alarm was computed (`alarms.length > 0` in the source) — writes a fresh
persisted record with every entry untriggered. -/
def scheduleAlarms (now dayStart : Int) (today : String) (settings : AlarmSettings)
    (todayData : Option DayData) (calendarId : Option Nat) (s : SysState) : SchedResult :=
  let s0 : SysState := { s with alarmTimers := [] }
  if settings.enabled = false then
    { state := { s0 with storedAlarmData := none }, writes := [] }
  else
    match todayData with
    | none => { state := s0, writes := [] }
    | some td =>
      let alarms := computeAlarms now dayStart settings td
      let s1 : SysState := { s0 with alarmTimers := alarms }
      match alarms with
      | [] => { state := s1, writes := [] }
      | _ :: _ =>
        let written : AlarmData :=
          { alarms := alarms.map (fun a => { type := a.type, time := a.time, triggered := false }),
            calendarId := calendarId, date := today }
        { state := { s1 with storedAlarmData := some written }, writes := [written] }

/-- A recoverable miss pushed onto `missedAlarms` by `checkMissedAlarms`:
`{type, time, minutesAgo}` with `minutesAgo = Math.floor(timeDiff / 60000)`. -/
structure MissedAlarm where
  type : String
  time : Int
  minutesAgo : Int
deriving DecidableEq

/-- The per-entry body of the `stored.alarms.forEach` loop in
`checkMissedAlarms`: an already-triggered entry is skipped; an untriggered
entry strictly in the past and strictly inside the recovery window is marked
triggered and yields a `MissedAlarm`; any other entry is left unchanged. -/
def processAlarm (now : Int) (alarm : StoredAlarm) : StoredAlarm × Option MissedAlarm :=
  if alarm.triggered then (alarm, none)
  else
    let timeDiff := now - alarm.time
    if 0 < timeDiff ∧ timeDiff < MAX_MISSED_ALARM_AGE then
      ({ alarm with triggered := true },
       some { type := alarm.type, time := alarm.time, minutesAgo := timeDiff / 60000 })
    else (alarm, none)

/-- One item of the aggregated toast text:
`Sahar alarm (N min ago)` or `Iftar alarm (N min ago)`. -/
def missedLabel (m : MissedAlarm) : String :=
  (if m.type = "sahar" then "Sahar" else "Iftar") ++ " alarm (" ++ toString m.minutesAgo ++ " min ago)"

/-- A `showNotification(title, body, tag)` call. -/
structure NotificationCall where
  title : String
  body : String
  tag : String
deriving DecidableEq

/-- Everything observable about one run of `checkMissedAlarms`: the final
persisted slot, the collected misses, the toast texts, the notification
calls, and the trace of `storeAlarmData` writes. -/
structure CheckResult where
  stored : Option AlarmData
  missedAlarms : List MissedAlarm
  toasts : List String
  notifications : List NotificationCall
  writes : List AlarmData
deriving DecidableEq

/-- Model of `checkMissedAlarms`: no-op when no record is stored; otherwise
every entry is processed by `processAlarm`, the updated record is written
back unconditionally, a toast plus one notification (for `missedAlarms[0]`)
are emitted when at least one miss was collected, and finally the record is
deleted when its `date` differs from today. -/
def checkMissedAlarms (now : Int) (today : String) (storedSlot : Option AlarmData) : CheckResult :=
  match storedSlot with
  | none => { stored := none, missedAlarms := [], toasts := [], notifications := [], writes := [] }
  | some stored =>
    let processed := (stored.alarms).map (processAlarm now)
    let missedAlarms := processed.filterMap Prod.snd
    let updated : AlarmData := { stored with alarms := processed.map Prod.fst }
    let toasts :=
      match missedAlarms with
      | [] => []
      | _ :: _ => ["Missed alarms: " ++ String.intercalate ", " (missedAlarms.map missedLabel)]
    let notifications :=
      match missedAlarms with
      | [] => []
      | m :: _ =>
        [{ title := "Missed Alarm",
           body := "You missed the " ++ m.type ++ " alarm",
           tag := "missed-alarm" }]
    let finalStored := if stored.date ≠ today then none else some updated
    { stored := finalStored, missedAlarms := missedAlarms, toasts := toasts,
      notifications := notifications, writes := [updated] }

/-- Outcome of reading the `alarmSettings` LocalStorage key and running it
through `JSON.parse`: the key is absent, the stored text fails to parse
(the `catch` branch), or it parses to an object carrying any subset of the
three settings fields. -/
inductive StoredSettings where
  | absent
  | malformed
  | parsed (enabled : Option Bool) (saharMinutes : Option Int) (iftarMinutes : Option Int)
deriving DecidableEq

/-- The `defaults` object of `getAlarmSettings`. -/
def defaultSettings : AlarmSettings :=
  { enabled := false, saharMinutes := 15, iftarMinutes := 15 }

/-- Model of `getAlarmSettings`: returns `defaults` when nothing is stored or
parsing throws, and otherwise the spread merge of `defaults` with the parsed
object — each field present in the parsed object wins, each absent field
falls back to its default. -/
def getAlarmSettings : StoredSettings → AlarmSettings
  | .absent => defaultSettings
  | .malformed => defaultSettings
  | .parsed e s i =>
    { enabled := match e with | some v => v | none => defaultSettings.enabled,
      saharMinutes := match s with | some v => v | none => defaultSettings.saharMinutes,
      iftarMinutes := match i with | some v => v | none => defaultSettings.iftarMinutes }

/-! Helper lemmas characterising the three branches of `processAlarm`. -/

/-- An already-triggered entry is skipped unchanged. -/
theorem processAlarm_triggered (now : Int) (b : StoredAlarm) (hb : b.triggered = true) :
    processAlarm now b = (b, none) := by
  unfold processAlarm
  rw [hb]
  simp

/-- An untriggered entry strictly in the past and strictly inside the window
is marked triggered and reported with its age in whole minutes. -/
theorem processAlarm_recover (now : Int) (b : StoredAlarm) (hb : b.triggered = false)
    (h1 : 0 < now - b.time) (h2 : now - b.time < MAX_MISSED_ALARM_AGE) :
    processAlarm now b
      = ({ b with triggered := true },
         some { type := b.type, time := b.time, minutesAgo := (now - b.time) / 60000 }) := by
  unfold processAlarm
  rw [hb]
  simp only [Bool.false_eq_true, if_false]
  rw [if_pos ⟨h1, h2⟩]

/-- An untriggered entry outside the recovery window is left unchanged. -/
theorem processAlarm_skip (now : Int) (b : StoredAlarm) (hb : b.triggered = false)
    (h : ¬(0 < now - b.time ∧ now - b.time < MAX_MISSED_ALARM_AGE)) :
    processAlarm now b = (b, none) := by
  unfold processAlarm
  rw [hb]
  simp only [Bool.false_eq_true, if_false]
  rw [if_neg h]

/-- After processing, an entry is never still an untriggered in-window one. -/
theorem processAlarm_not_recoverable (now : Int) (b : StoredAlarm) :
    ¬(((processAlarm now b).1.triggered = false)
      ∧ 0 < now - (processAlarm now b).1.time
      ∧ now - (processAlarm now b).1.time < MAX_MISSED_ALARM_AGE) := by
  cases hb : b.triggered with
  | true => rw [processAlarm_triggered now b hb]; simp [hb]
  | false =>
    by_cases hcond : 0 < now - b.time ∧ now - b.time < MAX_MISSED_ALARM_AGE
    · rw [processAlarm_recover now b hb hcond.1 hcond.2]; simp
    · rw [processAlarm_skip now b hb hcond]
      intro hfull
      exact hcond hfull.2

/-- Processing an already-processed entry reports nothing further. -/
theorem processAlarm_idem (now : Int) (b : StoredAlarm) :
    processAlarm now (processAlarm now b).1 = ((processAlarm now b).1, none) := by
  set c := (processAlarm now b).1 with hc
  cases htc : c.triggered with
  | true => exact processAlarm_triggered now c htc
  | false =>
    refine processAlarm_skip now c htc ?_
    intro hcond
    exact processAlarm_not_recoverable now b ⟨hc ▸ htc, hc ▸ hcond.1, hc ▸ hcond.2⟩

/-- A reported miss always comes from an untriggered in-window entry and
carries the time and age of that entry. -/
theorem processAlarm_snd_some (now : Int) (b : StoredAlarm) (m : MissedAlarm)
    (h : (processAlarm now b).2 = some m) :
    b.triggered = false ∧ 0 < now - b.time ∧ now - b.time < MAX_MISSED_ALARM_AGE
      ∧ m = ⟨b.type, b.time, (now - b.time) / 60000⟩ := by
  cases hb : b.triggered with
  | true => rw [processAlarm_triggered now b hb] at h; simp at h
  | false =>
    by_cases hcond : 0 < now - b.time ∧ now - b.time < MAX_MISSED_ALARM_AGE
    · rw [processAlarm_recover now b hb hcond.1 hcond.2] at h
      simp only [Option.some.injEq] at h
      exact ⟨rfl, hcond.1, hcond.2, h.symm⟩
    · rw [processAlarm_skip now b hb hcond] at h
      simp at h

/-- An entry that reports no miss is left exactly as it was. -/
theorem processAlarm_snd_none_fst (now : Int) (b : StoredAlarm)
    (h : (processAlarm now b).2 = none) : (processAlarm now b).1 = b := by
  cases hb : b.triggered with
  | true => rw [processAlarm_triggered now b hb]
  | false =>
    by_cases hcond : 0 < now - b.time ∧ now - b.time < MAX_MISSED_ALARM_AGE
    · rw [processAlarm_recover now b hb hcond.1 hcond.2] at h
      simp at h
    · rw [processAlarm_skip now b hb hcond]

/-! Projection equations for `checkMissedAlarms` on a present record. -/

/-- The collected misses are the per-entry reports, in record order. -/
theorem checkMissedAlarms_missed (now : Int) (today : String) (stored : AlarmData) :
    (checkMissedAlarms now today (some stored)).missedAlarms
      = (stored.alarms.map (processAlarm now)).filterMap Prod.snd := rfl

/-- The final slot holds the processed record, unless the date was stale. -/
theorem checkMissedAlarms_stored (now : Int) (today : String) (stored : AlarmData) :
    (checkMissedAlarms now today (some stored)).stored
      = if stored.date ≠ today then none
        else some { stored with
          alarms := (stored.alarms.map (processAlarm now)).map Prod.fst } := rfl

/-- Exactly one `storeAlarmData` write happens, with the processed record. -/
theorem checkMissedAlarms_writes (now : Int) (today : String) (stored : AlarmData) :
    (checkMissedAlarms now today (some stored)).writes
      = [{ stored with alarms := (stored.alarms.map (processAlarm now)).map Prod.fst }] := rfl

/-- The toast is present exactly when at least one miss was collected. -/
theorem checkMissedAlarms_toasts (now : Int) (today : String) (stored : AlarmData) :
    (checkMissedAlarms now today (some stored)).toasts
      = (match (stored.alarms.map (processAlarm now)).filterMap Prod.snd with
         | [] => []
         | _ :: _ =>
           ["Missed alarms: " ++ String.intercalate ", "
             (((stored.alarms.map (processAlarm now)).filterMap Prod.snd).map missedLabel)]) := rfl

/-- The notification is built from the head of the collected misses. -/
theorem checkMissedAlarms_notifications (now : Int) (today : String) (stored : AlarmData) :
    (checkMissedAlarms now today (some stored)).notifications
      = (match (stored.alarms.map (processAlarm now)).filterMap Prod.snd with
         | [] => []
         | m :: _ =>
           [{ title := "Missed Alarm",
              body := "You missed the " ++ m.type ++ " alarm",
              tag := "missed-alarm" }]) := rfl

/-- When no entry reports a miss, recovery collects nothing, emits nothing,
and rewrites the record unchanged (deleting it only when stale). -/
theorem checkMissedAlarms_no_miss (now : Int) (today : String) (d : AlarmData)
    (h : ∀ a ∈ d.alarms, (processAlarm now a).2 = none) :
    (checkMissedAlarms now today (some d)).missedAlarms = []
  ∧ (checkMissedAlarms now today (some d)).toasts = []
  ∧ (checkMissedAlarms now today (some d)).notifications = []
  ∧ (checkMissedAlarms now today (some d)).stored
      = (if d.date ≠ today then none else some d) := by
  have hmis : (d.alarms.map (processAlarm now)).filterMap Prod.snd = [] := by
    rw [List.filterMap_eq_nil_iff]
    intro x hx
    simp only [List.mem_map] at hx
    rcases hx with ⟨b, hb, rfl⟩
    exact h b hb
  have hfst : (d.alarms.map (processAlarm now)).map Prod.fst = d.alarms := by
    rw [List.map_map]
    have hcongr := List.map_congr_left (f := Prod.fst ∘ processAlarm now) (g := id)
      (fun b hb => processAlarm_snd_none_fst now b (h b hb))
    rw [hcongr, List.map_id]
  refine ⟨?_, ?_, ?_, ?_⟩
  · rw [checkMissedAlarms_missed, hmis]
  · rw [checkMissedAlarms_toasts, hmis]
  · rw [checkMissedAlarms_notifications, hmis]
  · rw [checkMissedAlarms_stored, hfst]

/-! Branch equations for `scheduleAlarms`. -/

/-- With alarms disabled, everything is cancelled and the record deleted. -/
theorem scheduleAlarms_disabled (now dayStart : Int) (today : String)
    (settings : AlarmSettings) (todayData : Option DayData) (calendarId : Option Nat)
    (s : SysState) (hen : settings.enabled = false) :
    scheduleAlarms now dayStart today settings todayData calendarId s
      = { state := { alarmTimers := [], storedAlarmData := none }, writes := [] } := by
  unfold scheduleAlarms
  rw [hen]
  simp

/-- With no day data, timers are cleared and nothing else happens. -/
theorem scheduleAlarms_noData (now dayStart : Int) (today : String)
    (settings : AlarmSettings) (calendarId : Option Nat) (s : SysState)
    (hen : settings.enabled = true) :
    scheduleAlarms now dayStart today settings none calendarId s
      = { state := { alarmTimers := [], storedAlarmData := s.storedAlarmData },
          writes := [] } := by
  unfold scheduleAlarms
  rw [hen]
  simp

/-- With an empty plan, timers are cleared and no record write happens. -/
theorem scheduleAlarms_empty (now dayStart : Int) (today : String)
    (settings : AlarmSettings) (td : DayData) (calendarId : Option Nat) (s : SysState)
    (hen : settings.enabled = true)
    (hal : computeAlarms now dayStart settings td = []) :
    scheduleAlarms now dayStart today settings (some td) calendarId s
      = { state := { alarmTimers := [], storedAlarmData := s.storedAlarmData },
          writes := [] } := by
  unfold scheduleAlarms
  rw [hen]
  simp only [Bool.true_eq_false, if_false]
  rw [hal]

/-- With a nonempty plan, the plan is armed and written out untriggered. -/
theorem scheduleAlarms_nonempty (now dayStart : Int) (today : String)
    (settings : AlarmSettings) (td : DayData) (calendarId : Option Nat) (s : SysState)
    (a : Alarm) (l : List Alarm)
    (hen : settings.enabled = true)
    (hal : computeAlarms now dayStart settings td = a :: l) :
    scheduleAlarms now dayStart today settings (some td) calendarId s
      = { state :=
            { alarmTimers := a :: l,
              storedAlarmData := some
                { alarms := (a :: l).map
                    (fun x => { type := x.type, time := x.time, triggered := false }),
                  calendarId := calendarId, date := today } },
          writes :=
            [{ alarms := (a :: l).map
                  (fun x => { type := x.type, time := x.time, triggered := false }),
               calendarId := calendarId, date := today }] } := by
  unfold scheduleAlarms
  rw [hen]
  simp only [Bool.true_eq_false, if_false]
  rw [hal]

/-- Every alarm the planner emits lies strictly after `now`. -/
theorem mem_computeAlarms_now_lt (now dayStart : Int) (settings : AlarmSettings)
    (td : DayData) (a : Alarm) (h : a ∈ computeAlarms now dayStart settings td) :
    now < a.time := by
  unfold computeAlarms at h
  simp only [List.mem_append] at h
  rcases h with ((h | h) | h) | h <;>
    · split at h
      next hc => simp only [List.mem_singleton] at h; subst h; exact hc
      next => simp at h

/-- The planner output written as four guarded singleton segments. -/
theorem computeAlarms_eq (now dayStart : Int) (settings : AlarmSettings) (td : DayData) :
    computeAlarms now dayStart settings td
      = (if hhmmInstant dayStart td.saharTime - settings.saharMinutes * 60000 > now then
          [{ type := "sahar-pre",
             time := hhmmInstant dayStart td.saharTime - settings.saharMinutes * 60000,
             eventTime := td.saharTime,
             message := "Sahar ends in " ++ toString settings.saharMinutes ++ " minutes",
             title := "Sahar Reminder" }] else [])
        ++ (if hhmmInstant dayStart td.saharTime > now then
          [{ type := "sahar", time := hhmmInstant dayStart td.saharTime,
             eventTime := td.saharTime,
             message := "Time for Sahar! End your meal now.",
             title := "Sahar Time" }] else [])
        ++ (if hhmmInstant dayStart td.iftarTime - settings.iftarMinutes * 60000 > now then
          [{ type := "iftar-pre",
             time := hhmmInstant dayStart td.iftarTime - settings.iftarMinutes * 60000,
             eventTime := td.iftarTime,
             message := "Iftar begins in " ++ toString settings.iftarMinutes ++ " minutes",
             title := "Iftar Reminder" }] else [])
        ++ (if hhmmInstant dayStart td.iftarTime > now then
          [{ type := "iftar", time := hhmmInstant dayStart td.iftarTime,
             eventTime := td.iftarTime,
             message := "Time for Iftar! Break your fast.",
             title := "Iftar Time" }] else []) := rfl

/-- A guarded singleton segment is a sublist of its singleton. -/
theorem ite_singleton_sublist (c : Prop) [Decidable c] (x : Alarm) :
    List.Sublist (if c then [x] else []) [x] := by
  split
  · exact List.Sublist.refl [x]
  · exact List.nil_sublist [x]

/-- Pairwise on a four-element list from the six pair facts. -/
theorem pairwise_four {α : Type} (R : α → α → Prop) (w x y z : α)
    (hwx : R w x) (hwy : R w y) (hwz : R w z) (hxy : R x y) (hxz : R x z) (hyz : R y z) :
    List.Pairwise R [w, x, y, z] := by
  refine List.Pairwise.cons ?_ (List.Pairwise.cons ?_ (List.Pairwise.cons ?_
    (List.Pairwise.cons (fun a ha => absurd ha (List.not_mem_nil a)) List.Pairwise.nil)))
  · intro a ha
    rcases List.mem_cons.mp ha with rfl | ha'
    · exact hwx
    rcases List.mem_cons.mp ha' with rfl | ha''
    · exact hwy
    rcases List.mem_cons.mp ha'' with rfl | ha'''
    · exact hwz
    exact absurd ha''' (List.not_mem_nil a)
  · intro a ha
    rcases List.mem_cons.mp ha with rfl | ha'
    · exact hxy
    rcases List.mem_cons.mp ha' with rfl | ha''
    · exact hxz
    exact absurd ha'' (List.not_mem_nil a)
  · intro a ha
    rcases List.mem_cons.mp ha with rfl | ha'
    · exact hyz
    exact absurd ha' (List.not_mem_nil a)

/-! The claims. -/

/-- Claim C1, counterexample: a persisted record whose `date` is not today but
which holds an untriggered entry 30 minutes in the past still produces a
missed-alarm notification and toast, and its entry is marked triggered in the
write-back — the stale record is not discarded silently. -/
theorem stale_record_recovery_cex :
    ((checkMissedAlarms 1800000 "today"
        (some ⟨[⟨"sahar", 0, false⟩], none, "yesterday"⟩)).notifications
      = [⟨"Missed Alarm", "You missed the sahar alarm", "missed-alarm"⟩])
  ∧ ((checkMissedAlarms 1800000 "today"
        (some ⟨[⟨"sahar", 0, false⟩], none, "yesterday"⟩)).toasts
      = ["Missed alarms: Sahar alarm (30 min ago)"])
  ∧ ((checkMissedAlarms 1800000 "today"
        (some ⟨[⟨"sahar", 0, false⟩], none, "yesterday"⟩)).writes
      = [⟨[⟨"sahar", 0, true⟩], none, "yesterday"⟩]) := by
  refine ⟨rfl, rfl, rfl⟩

/-- Claim C1, amended: a record whose stored date differs from today is
deleted at the end of recovery, but before deletion its entries are processed
exactly as for a same-day record — the misses, notifications, toasts and the
write-back are identical to those of a run in which the date matches. -/
theorem stale_record_processed_then_cleared (now : Int) (today : String) (stored : AlarmData)
    (hdate : stored.date ≠ today) :
    ((checkMissedAlarms now today (some stored)).stored = none)
  ∧ ((checkMissedAlarms now today (some stored)).missedAlarms
        = (checkMissedAlarms now stored.date (some stored)).missedAlarms)
  ∧ ((checkMissedAlarms now today (some stored)).notifications
        = (checkMissedAlarms now stored.date (some stored)).notifications)
  ∧ ((checkMissedAlarms now today (some stored)).toasts
        = (checkMissedAlarms now stored.date (some stored)).toasts)
  ∧ ((checkMissedAlarms now today (some stored)).writes
        = (checkMissedAlarms now stored.date (some stored)).writes) := by
  refine ⟨?_, rfl, rfl, rfl, rfl⟩
  rw [checkMissedAlarms_stored, if_pos hdate]

/-- Witness for the amended claim C1 at a concrete stale record. -/
theorem stale_record_processed_then_cleared_witness :
    (checkMissedAlarms 1800000 "today"
        (some ⟨[⟨"sahar", 0, false⟩], none, "yesterday"⟩)).stored = none :=
  (stale_record_processed_then_cleared 1800000 "today"
    ⟨[⟨"sahar", 0, false⟩], none, "yesterday"⟩ (by decide)).1

/-- Claim C2, counterexample: a same-day record with an untriggered entry two
hours in the past (at or beyond the 1-hour window) is written back with the
entry still untriggered — the code does not mark stale entries triggered. -/
theorem old_entry_not_marked_cex :
    (checkMissedAlarms 7200000 "d" (some ⟨[⟨"sahar", 0, false⟩], none, "d"⟩)).stored
      = some ⟨[⟨"sahar", 0, false⟩], none, "d"⟩ := by
  decide

/-- Claim C2, amended: an untriggered entry of a same-day record whose
instant is at least the 1-hour window in the past is left completely
unchanged (its triggered flag stays false), and every collected miss lies
strictly inside the window, so no notification arises from such an entry. -/
theorem old_entry_left_untriggered (now : Int) (today : String) (stored : AlarmData)
    (hdate : stored.date = today) (a : StoredAlarm) (ha : a ∈ stored.alarms)
    (htrig : a.triggered = false) (hold : MAX_MISSED_ALARM_AGE ≤ now - a.time) :
    (processAlarm now a = (a, none))
  ∧ ((checkMissedAlarms now today (some stored)).stored
        = some { stored with alarms := stored.alarms.map (fun b => (processAlarm now b).1) })
  ∧ (∀ m ∈ (checkMissedAlarms now today (some stored)).missedAlarms,
        0 < now - m.time ∧ now - m.time < MAX_MISSED_ALARM_AGE) := by
  refine ⟨processAlarm_skip now a htrig (fun hc => absurd hold (not_le.mpr hc.2)), ?_, ?_⟩
  · rw [checkMissedAlarms_stored, if_neg (fun hne => hne hdate), List.map_map]
    rfl
  · intro m hm
    rw [checkMissedAlarms_missed] at hm
    simp only [List.mem_filterMap, List.mem_map] at hm
    rcases hm with ⟨p, ⟨b, _, rfl⟩, hsnd⟩
    rcases processAlarm_snd_some now b m hsnd with ⟨_, h1, h2, rfl⟩
    exact ⟨h1, h2⟩

/-- Witness for the amended claim C2 at a concrete two-hour-old entry. -/
theorem old_entry_left_untriggered_witness :
    processAlarm 7200000 ⟨"sahar", 0, false⟩ = (⟨"sahar", 0, false⟩, none) :=
  (old_entry_left_untriggered 7200000 "d" ⟨[⟨"sahar", 0, false⟩], none, "d"⟩ rfl
    ⟨"sahar", 0, false⟩ (by simp) rfl (by decide)).1

/-- Claim C3 (confirmed): the miss summary is exactly the per-entry reports in
record order, the record is written back with the per-entry results, and an
untriggered entry strictly in the past is recovered — marked triggered, with
its age in whole minutes — precisely when its age is strictly below the
1-hour window, and left untouched when its age is at or beyond it. -/
theorem recovery_window_strict (now : Int) (today : String) (stored : AlarmData) :
    ((checkMissedAlarms now today (some stored)).missedAlarms
        = (stored.alarms.map (processAlarm now)).filterMap Prod.snd)
  ∧ ((checkMissedAlarms now today (some stored)).writes
        = [{ stored with alarms := (stored.alarms.map (processAlarm now)).map Prod.fst }])
  ∧ ∀ a : StoredAlarm, a.triggered = false → 0 < now - a.time →
      ((now - a.time < MAX_MISSED_ALARM_AGE →
          processAlarm now a
            = ({ a with triggered := true },
               some { type := a.type, time := a.time, minutesAgo := (now - a.time) / 60000 }))
        ∧ (MAX_MISSED_ALARM_AGE ≤ now - a.time →
          processAlarm now a = (a, none))) := by
  refine ⟨checkMissedAlarms_missed now today stored, checkMissedAlarms_writes now today stored,
    fun a ha h1 => ⟨fun h2 => processAlarm_recover now a ha h1 h2,
      fun h2 => processAlarm_skip now a ha (fun hc => absurd h2 (not_le.mpr hc.2))⟩⟩

/-- Witness for claim C3 at a concrete 50-minute-old entry. -/
theorem recovery_window_strict_witness :
    ((checkMissedAlarms 3000000 "d" (some ⟨[⟨"sahar", 0, false⟩], none, "d"⟩)).missedAlarms
      = ([(⟨"sahar", 0, false⟩ : StoredAlarm)].map (processAlarm 3000000)).filterMap Prod.snd)
  ∧ (processAlarm 3000000 ⟨"sahar", 0, false⟩
      = (⟨"sahar", 0, true⟩, some ⟨"sahar", 0, 50⟩)) :=
  ⟨(recovery_window_strict 3000000 "d" ⟨[⟨"sahar", 0, false⟩], none, "d"⟩).1,
   ((recovery_window_strict 3000000 "d" ⟨[⟨"sahar", 0, false⟩], none, "d"⟩).2.2
      ⟨"sahar", 0, false⟩ rfl (by decide)).1 (by decide)⟩

/-- Claim C4, counterexample: with alarms enabled and day data present but
every instant already past (23:59 against events 05:30 and 18:45), the plan
is empty and `scheduleAlarms` performs no persisted-record write at all. -/
theorem plan_empty_no_write_cex :
    ((⟨true, 15, 15⟩ : AlarmSettings).enabled = true)
  ∧ (scheduleAlarms 86340000 0 "d" ⟨true, 15, 15⟩ (some ⟨⟨5, 30⟩, ⟨18, 45⟩⟩) none
        ⟨[], none⟩).writes = [] := by
  exact ⟨rfl, rfl⟩

/-- Claim C4, amended: with settings enabled and day data present, a plan
call performs exactly one persisted-record write — whose entries mirror the
computed plan with triggered set false and whose date is today — when the
computed plan is nonempty; when the plan is empty it performs no write and
leaves the previously stored record untouched. -/
theorem plan_write_characterization (now dayStart : Int) (today : String)
    (settings : AlarmSettings) (td : DayData) (calendarId : Option Nat) (s : SysState)
    (hen : settings.enabled = true) :
    (computeAlarms now dayStart settings td ≠ [] →
        (scheduleAlarms now dayStart today settings (some td) calendarId s).writes
          = [{ alarms := (computeAlarms now dayStart settings td).map
                  (fun a => { type := a.type, time := a.time, triggered := false }),
               calendarId := calendarId, date := today }])
  ∧ (computeAlarms now dayStart settings td = [] →
        (scheduleAlarms now dayStart today settings (some td) calendarId s).writes = []
      ∧ (scheduleAlarms now dayStart today settings (some td) calendarId
          s).state.storedAlarmData = s.storedAlarmData) := by
  constructor
  · intro hne
    cases hal : computeAlarms now dayStart settings td with
    | nil => exact absurd hal hne
    | cons a l =>
      rw [scheduleAlarms_nonempty now dayStart today settings td calendarId s a l hen hal]
  · intro hal
    rw [scheduleAlarms_empty now dayStart today settings td calendarId s hen hal]
    exact ⟨rfl, rfl⟩

/-- Witness for the amended claim C4 at a concrete nonempty plan. -/
theorem plan_write_characterization_witness :
    (scheduleAlarms 14400000 0 "d" ⟨true, 15, 15⟩ (some ⟨⟨5, 30⟩, ⟨18, 45⟩⟩) none
        ⟨[], none⟩).writes
      = [{ alarms := (computeAlarms 14400000 0 ⟨true, 15, 15⟩ ⟨⟨5, 30⟩, ⟨18, 45⟩⟩).map
              (fun a => { type := a.type, time := a.time, triggered := false }),
           calendarId := none, date := "d" }] :=
  (plan_write_characterization 14400000 0 "d" ⟨true, 15, 15⟩ ⟨⟨5, 30⟩, ⟨18, 45⟩⟩ none
    ⟨[], none⟩ rfl).1 (by decide)

/-- Claim C5, counterexample: with a sahar miss 50 minutes old listed before
an iftar miss only 10 minutes old, the single notification cites the sahar
miss — the first-listed entry — not the most recent (iftar) miss. -/
theorem oldest_miss_notified_cex :
    ((checkMissedAlarms 3000000 "d"
        (some ⟨[⟨"sahar", 0, false⟩, ⟨"iftar", 2400000, false⟩], none, "d"⟩)).missedAlarms
      = [⟨"sahar", 0, 50⟩, ⟨"iftar", 2400000, 10⟩])
  ∧ ((checkMissedAlarms 3000000 "d"
        (some ⟨[⟨"sahar", 0, false⟩, ⟨"iftar", 2400000, false⟩], none, "d"⟩)).notifications
      = [⟨"Missed Alarm", "You missed the sahar alarm", "missed-alarm"⟩])
  ∧ ((checkMissedAlarms 3000000 "d"
        (some ⟨[⟨"sahar", 0, false⟩, ⟨"iftar", 2400000, false⟩], none, "d"⟩)).notifications
      ≠ [⟨"Missed Alarm", "You missed the iftar alarm", "missed-alarm"⟩]) := by
  refine ⟨rfl, rfl, by decide⟩

/-- Claim C5, amended: when recovery collects at least one miss it emits
exactly one notification beyond the aggregated toast, and that notification
cites the first-listed recoverable entry in record order — which may be the
oldest, not the most recent, miss. -/
theorem first_listed_miss_notified (now : Int) (today : String) (stored : AlarmData)
    (m : MissedAlarm) (rest : List MissedAlarm)
    (h : (checkMissedAlarms now today (some stored)).missedAlarms = m :: rest) :
    ((checkMissedAlarms now today (some stored)).notifications
      = [⟨"Missed Alarm", "You missed the " ++ m.type ++ " alarm", "missed-alarm"⟩])
  ∧ ((checkMissedAlarms now today (some stored)).toasts
      = ["Missed alarms: " ++ String.intercalate ", " ((m :: rest).map missedLabel)]) := by
  have h' : (stored.alarms.map (processAlarm now)).filterMap Prod.snd = m :: rest := by
    rw [← checkMissedAlarms_missed now today stored]
    exact h
  constructor
  · rw [checkMissedAlarms_notifications, h']
  · rw [checkMissedAlarms_toasts, h']

/-- Witness for the amended claim C5 at a concrete two-miss record. -/
theorem first_listed_miss_notified_witness :
    (checkMissedAlarms 3000000 "d"
        (some ⟨[⟨"sahar", 0, false⟩, ⟨"iftar", 2400000, false⟩], none, "d"⟩)).notifications
      = [⟨"Missed Alarm", "You missed the " ++ "sahar" ++ " alarm", "missed-alarm"⟩] :=
  (first_listed_miss_notified 3000000 "d"
    ⟨[⟨"sahar", 0, false⟩, ⟨"iftar", 2400000, false⟩], none, "d"⟩
    ⟨"sahar", 0, 50⟩ [⟨"iftar", 2400000, 10⟩] rfl).1

/-- Claim C6 (confirmed): every alarm in the armed timer set lies strictly
after `now` — past or present instants are silently omitted — and at
now = 06:00 with events 05:30 and 18:45 and 15-minute offsets the armed set
is exactly iftar-pre at 18:30 and iftar at 18:45. -/
theorem past_alarms_filtered :
    (∀ (now dayStart : Int) (today : String) (settings : AlarmSettings)
        (todayData : Option DayData) (calendarId : Option Nat) (s : SysState) (a : Alarm),
      a ∈ (scheduleAlarms now dayStart today settings todayData calendarId
            s).state.alarmTimers →
      now < a.time)
  ∧ ((scheduleAlarms 21600000 0 "d" ⟨true, 15, 15⟩ (some ⟨⟨5, 30⟩, ⟨18, 45⟩⟩) none
        ⟨[], none⟩).state.alarmTimers.map (fun a => (a.type, a.time))
      = [("iftar-pre", 66600000), ("iftar", 67500000)]) := by
  constructor
  · intro now dayStart today settings todayData calendarId s a ha
    cases hen : settings.enabled with
    | false =>
      rw [scheduleAlarms_disabled now dayStart today settings todayData calendarId s hen] at ha
      simp at ha
    | true =>
      cases todayData with
      | none =>
        rw [scheduleAlarms_noData now dayStart today settings calendarId s hen] at ha
        simp at ha
      | some td =>
        cases hal : computeAlarms now dayStart settings td with
        | nil =>
          rw [scheduleAlarms_empty now dayStart today settings td calendarId s hen hal] at ha
          simp at ha
        | cons x l =>
          rw [scheduleAlarms_nonempty now dayStart today settings td calendarId s x l hen hal]
            at ha
          exact mem_computeAlarms_now_lt now dayStart settings td a (hal ▸ ha)
  · rfl

/-- Witness for claim C6 at a concrete armed alarm. -/
theorem past_alarms_filtered_witness :
    (21600000 : Int)
      < ({ type := "iftar", time := 67500000, eventTime := ⟨18, 45⟩,
           message := "Time for Iftar! Break your fast.", title := "Iftar Time" } : Alarm).time :=
  past_alarms_filtered.1 21600000 0 "d" ⟨true, 15, 15⟩ (some ⟨⟨5, 30⟩, ⟨18, 45⟩⟩) none
    ⟨[], none⟩ _ (by decide)

/-- Claim C7, counterexample: with valid offsets (15 in [1, 60]) and
well-formed times sahar 18:40 and iftar 18:45, the planner output is not
chronological — the sahar exact alarm at 18:40 precedes the iftar pre-alarm
at 18:30 in the list. -/
theorem planner_unordered_cex :
    (1 : Int) ≤ 15 ∧ (15 : Int) ≤ 60
  ∧ ¬ List.Chain' (fun a b : Alarm => a.time < b.time)
      (computeAlarms 14400000 0 ⟨true, 15, 15⟩ ⟨⟨18, 40⟩, ⟨18, 45⟩⟩) := by
  refine ⟨by norm_num, by norm_num, fun h => ?_⟩
  have h2 := (List.chain'_map Alarm.time).mpr h
  rw [show (computeAlarms 14400000 0 ⟨true, 15, 15⟩ ⟨⟨18, 40⟩, ⟨18, 45⟩⟩).map Alarm.time
      = [66300000, 67200000, 66600000, 67500000] from rfl] at h2
  simp only [List.chain'_cons] at h2
  exact absurd h2.2.1 (by decide)

/-- Claim C7, amended: the planner output is strictly chronological whenever
the offsets are at least one minute and the sahar exact instant precedes the
iftar pre-alarm instant (as in any real calendar where sahar is pre-dawn and
iftar is in the evening); in particular at now = 04:00 with events 05:30 and
18:45 and 15-minute offsets it returns exactly the four alarms in order. -/
theorem planner_sorted_when_events_separated (now dayStart : Int)
    (settings : AlarmSettings) (td : DayData)
    (hA : 1 ≤ settings.saharMinutes) (hB : 1 ≤ settings.iftarMinutes)
    (hsep : hhmmInstant dayStart td.saharTime
        < hhmmInstant dayStart td.iftarTime - settings.iftarMinutes * 60000) :
    ((computeAlarms now dayStart settings td).Pairwise (fun a b => a.time < b.time))
  ∧ ((computeAlarms 14400000 0 ⟨true, 15, 15⟩ ⟨⟨5, 30⟩, ⟨18, 45⟩⟩).map
        (fun a => (a.type, a.time))
      = [("sahar-pre", 18900000), ("sahar", 19800000),
         ("iftar-pre", 66600000), ("iftar", 67500000)]) := by
  refine ⟨?_, rfl⟩
  have e1 : (60000 : Int) ≤ settings.saharMinutes * 60000 := by
    have h := mul_le_mul_of_nonneg_right hA (by norm_num : (0 : Int) ≤ 60000)
    linarith
  have e2 : (60000 : Int) ≤ settings.iftarMinutes * 60000 := by
    have h := mul_le_mul_of_nonneg_right hB (by norm_num : (0 : Int) ≤ 60000)
    linarith
  rw [computeAlarms_eq]
  refine List.Pairwise.sublist
    (List.Sublist.append (List.Sublist.append (List.Sublist.append
      (ite_singleton_sublist _ _) (ite_singleton_sublist _ _))
      (ite_singleton_sublist _ _)) (ite_singleton_sublist _ _))
    (pairwise_four _ _ _ _ _ ?_ ?_ ?_ ?_ ?_ ?_)
  all_goals dsimp only
  all_goals linarith [e1, e2, hsep]

/-- Witness for the amended claim C7 at the specified scenario. -/
theorem planner_sorted_when_events_separated_witness :
    (computeAlarms 14400000 0 ⟨true, 15, 15⟩ ⟨⟨5, 30⟩, ⟨18, 45⟩⟩).Pairwise
      (fun a b => a.time < b.time) :=
  (planner_sorted_when_events_separated 14400000 0 ⟨true, 15, 15⟩ ⟨⟨5, 30⟩, ⟨18, 45⟩⟩
    (by norm_num) (by norm_num) (by decide)).1

/-- Claim C8 (confirmed): planning twice with unchanged inputs arms exactly
the same timer set as planning once — indeed the whole scheduler state is
identical — because each call first cancels every armed timer. -/
theorem plan_idempotent (now dayStart : Int) (today : String) (settings : AlarmSettings)
    (todayData : Option DayData) (calendarId : Option Nat) (s : SysState) :
    ((scheduleAlarms now dayStart today settings todayData calendarId
        (scheduleAlarms now dayStart today settings todayData calendarId s).state).state.alarmTimers
      = (scheduleAlarms now dayStart today settings todayData calendarId s).state.alarmTimers)
  ∧ ((scheduleAlarms now dayStart today settings todayData calendarId
        (scheduleAlarms now dayStart today settings todayData calendarId s).state).state
      = (scheduleAlarms now dayStart today settings todayData calendarId s).state) := by
  have key : (scheduleAlarms now dayStart today settings todayData calendarId
        (scheduleAlarms now dayStart today settings todayData calendarId s).state).state
      = (scheduleAlarms now dayStart today settings todayData calendarId s).state := by
    cases hen : settings.enabled with
    | false =>
      rw [scheduleAlarms_disabled now dayStart today settings todayData calendarId s hen,
        scheduleAlarms_disabled now dayStart today settings todayData calendarId _ hen]
    | true =>
      cases todayData with
      | none =>
        rw [scheduleAlarms_noData now dayStart today settings calendarId s hen,
          scheduleAlarms_noData now dayStart today settings calendarId _ hen]
      | some td =>
        cases hal : computeAlarms now dayStart settings td with
        | nil =>
          rw [scheduleAlarms_empty now dayStart today settings td calendarId s hen hal,
            scheduleAlarms_empty now dayStart today settings td calendarId _ hen hal]
        | cons a l =>
          rw [scheduleAlarms_nonempty now dayStart today settings td calendarId s a l hen hal,
            scheduleAlarms_nonempty now dayStart today settings td calendarId _ a l hen hal]
  exact ⟨congrArg SysState.alarmTimers key, key⟩

/-- Claim C9 (confirmed): whatever is stored under the settings key — absent,
unparsable, or a partial object — `getAlarmSettings` returns a full settings
object where each missing field takes its default (enabled false, both
offsets 15); with corrupted storage the result is the defaults, so alarms
are disabled and a plan call arms nothing and writes nothing. -/
theorem settings_defaults_total :
    (getAlarmSettings .absent = { enabled := false, saharMinutes := 15, iftarMinutes := 15 })
  ∧ (getAlarmSettings .malformed = { enabled := false, saharMinutes := 15, iftarMinutes := 15 })
  ∧ (∀ (e : Option Bool) (sm im : Option Int),
      getAlarmSettings (.parsed e sm im)
        = { enabled := e.getD false, saharMinutes := sm.getD 15, iftarMinutes := im.getD 15 })
  ∧ (∀ (now dayStart : Int) (today : String) (todayData : Option DayData)
        (calendarId : Option Nat) (s : SysState),
      (scheduleAlarms now dayStart today (getAlarmSettings .malformed) todayData calendarId
          s).state.alarmTimers = []
      ∧ (scheduleAlarms now dayStart today (getAlarmSettings .malformed) todayData calendarId
          s).writes = []) := by
  refine ⟨rfl, rfl, fun e sm im => ?_, fun now dayStart today todayData calendarId s => ?_⟩
  · cases e <;> cases sm <;> cases im <;> rfl
  · rw [scheduleAlarms_disabled now dayStart today _ todayData calendarId s rfl]
    exact ⟨rfl, rfl⟩

/-- Claim C10 (confirmed): after one recovery run on a same-day record, the
persisted record holds the processed entries, none of which is an untriggered
in-window entry any more, so an immediate second run with the same clock
collects no miss, emits no toast and no notification, and leaves the stored
record exactly as the first run left it. -/
theorem recovery_idempotent (now : Int) (today : String) (stored : AlarmData)
    (hdate : stored.date = today) :
    ((checkMissedAlarms now today (some stored)).stored
        = some { stored with alarms := (stored.alarms.map (processAlarm now)).map Prod.fst })
  ∧ (∀ a ∈ (stored.alarms.map (processAlarm now)).map Prod.fst,
        ¬(a.triggered = false ∧ 0 < now - a.time ∧ now - a.time < MAX_MISSED_ALARM_AGE))
  ∧ ((checkMissedAlarms now today
        (checkMissedAlarms now today (some stored)).stored).missedAlarms = [])
  ∧ ((checkMissedAlarms now today
        (checkMissedAlarms now today (some stored)).stored).toasts = [])
  ∧ ((checkMissedAlarms now today
        (checkMissedAlarms now today (some stored)).stored).notifications = [])
  ∧ ((checkMissedAlarms now today
        (checkMissedAlarms now today (some stored)).stored).stored
      = (checkMissedAlarms now today (some stored)).stored) := by
  have hst : (checkMissedAlarms now today (some stored)).stored
      = some { stored with alarms := (stored.alarms.map (processAlarm now)).map Prod.fst } := by
    rw [checkMissedAlarms_stored, if_neg (fun hne => hne hdate)]
  have hmem : ∀ a ∈ (stored.alarms.map (processAlarm now)).map Prod.fst,
      ¬(a.triggered = false ∧ 0 < now - a.time ∧ now - a.time < MAX_MISSED_ALARM_AGE) := by
    intro a ha
    simp only [List.map_map, List.mem_map] at ha
    rcases ha with ⟨b, _, rfl⟩
    exact processAlarm_not_recoverable now b
  have hnone : ∀ a ∈ ({ stored with
        alarms := (stored.alarms.map (processAlarm now)).map Prod.fst } : AlarmData).alarms,
      (processAlarm now a).2 = none := by
    intro a ha
    simp only [List.map_map, List.mem_map] at ha
    rcases ha with ⟨b, _, rfl⟩
    exact congrArg Prod.snd (processAlarm_idem now b)
  have hrun2 := checkMissedAlarms_no_miss now today _ hnone
  rw [hst]
  refine ⟨rfl, hmem, hrun2.1, hrun2.2.1, hrun2.2.2.1, ?_⟩
  rw [hrun2.2.2.2, if_neg (fun hne => hne hdate)]

/-- Witness for claim C10 at a concrete one-entry record. -/
theorem recovery_idempotent_witness :
    ((checkMissedAlarms 1800000 "d"
        (checkMissedAlarms 1800000 "d"
          (some ⟨[⟨"sahar", 0, false⟩], none, "d"⟩)).stored).missedAlarms = [])
  ∧ ((checkMissedAlarms 1800000 "d"
        (checkMissedAlarms 1800000 "d"
          (some ⟨[⟨"sahar", 0, false⟩], none, "d"⟩)).stored).notifications = []) :=
  ⟨(recovery_idempotent 1800000 "d" ⟨[⟨"sahar", 0, false⟩], none, "d"⟩ rfl).2.2.1,
   (recovery_idempotent 1800000 "d" ⟨[⟨"sahar", 0, false⟩], none, "d"⟩ rfl).2.2.2.2.1⟩

end RamadanReady
